import Mathlib

/-!
Verification of the reconciliation engine of `zfmrf` (file
`zfmrf/zfmrf_subject.py`): gating-file matching and copying
(`copyGatingToStudy`), the two-phase spectroscopy locator
(`_findSpectraInSAGE`), the spectra copier (`copySpectraToStudy`) and the
completeness checker (`getSpectraPDF_dict`, `isSpectraComplete`).

The Python code is shallowly embedded: the filesystem is a record of
directory listings and existence predicates, Python exceptions become an
`Except` result, and each `self.logger` call site becomes a tagged log
event.  `datetime.datetime.strptime` is embedded with the semantics of the
CPython implementation for the two formats that the source uses
(a backtracking match of per-field digit patterns over the input, followed
by the `datetime` constructor range validation).
-/

set_option autoImplicit false

/-- A Python exception class, as far as the embedded code distinguishes them. -/
inductive PyErr where
  | typeError
  | valueError
  | indexError
  | osError
deriving DecidableEq, Repr

/-- The `strptime` format directives used by the source
(`%Y`, `%m`, `%d`, `%H`, `%M`, `%S`). -/
inductive FSpec where
  | Y
  | m
  | d
  | H
  | M
  | S
deriving DecidableEq, Repr, BEq

def digitVal (c : Char) : Nat := c.toNat - '0'.toNat

def charBetween (lo hi c : Char) : Bool := lo ≤ c && c ≤ hi

/-- Match two characters from the head of the input, the first satisfying
`p1` and the second `p2`, returning the two-digit value. -/
def mat2 (p1 p2 : Char → Bool) (s : List Char) : Option (Nat × List Char) :=
  match s with
  | a :: b :: r => if p1 a && p2 b then some (digitVal a * 10 + digitVal b, r) else none
  | _ => none

/-- Match one digit-class character from the head of the input. -/
def mat1 (p : Char → Bool) (s : List Char) : Option (Nat × List Char) :=
  match s with
  | a :: r => if p a then some (digitVal a, r) else none
  | _ => none

/-- Match exactly four digits (the `%Y` pattern). -/
def mat4 (s : List Char) : Option (Nat × List Char) :=
  match s with
  | a :: b :: c :: d :: r =>
    if a.isDigit && b.isDigit && c.isDigit && d.isDigit then
      some (digitVal a * 1000 + digitVal b * 100 + digitVal c * 10 + digitVal d, r)
    else none
  | _ => none

/-- The ordered regex alternatives of each directive, as in CPython's
`_strptime.TimeRE`: for example `%d` is `3[01]|[12]\d|0[1-9]|[1-9]`. -/
def altsOf : FSpec → List (List Char → Option (Nat × List Char))
  | .Y => [mat4]
  | .m => [mat2 (· = '1') (charBetween '0' '2'),
           mat2 (· = '0') (charBetween '1' '9'),
           mat1 (charBetween '1' '9')]
  | .d => [mat2 (· = '3') (charBetween '0' '1'),
           mat2 (charBetween '1' '2') Char.isDigit,
           mat2 (· = '0') (charBetween '1' '9'),
           mat1 (charBetween '1' '9')]
  | .H => [mat2 (· = '2') (charBetween '0' '3'),
           mat2 (charBetween '0' '1') Char.isDigit,
           mat1 Char.isDigit]
  | .M => [mat2 (charBetween '0' '5') Char.isDigit,
           mat1 Char.isDigit]
  | .S => [mat2 (· = '6') (charBetween '0' '1'),
           mat2 (charBetween '0' '5') Char.isDigit,
           mat1 Char.isDigit]

/-- Try the alternatives of one field in order; on success of an
alternative, run the continuation (the match of the remaining fields) and
backtrack to the next alternative if it fails.  This is the backtracking
behaviour of the regex that CPython compiles for the whole format. -/
def tryAlts (cont : List Char → Option (List Nat × List Char)) :
    List (List Char → Option (Nat × List Char)) → List Char →
    Option (List Nat × List Char)
  | [], _ => none
  | a :: as, s =>
    match a s with
    | some (v, r) =>
      match cont r with
      | some (vs, rest) => some (v :: vs, rest)
      | none => tryAlts cont as s
    | none => tryAlts cont as s

/-- Match a list of format directives against the input, returning the
field values in order and the unconsumed suffix. -/
def matchFields : List FSpec → List Char → Option (List Nat × List Char)
  | [], s => some ([], s)
  | f :: fs, s => tryAlts (matchFields fs) (altsOf f) s

/-- A `datetime.datetime` value (the fields the source formats produce). -/
structure PyDatetime where
  y : Nat
  mo : Nat
  d : Nat
  h : Nat
  mi : Nat
  s : Nat
deriving DecidableEq, Repr

def daysInMonth (y mo : Nat) : Nat :=
  if mo = 2 then (if y % 4 = 0 && (y % 100 ≠ 0 || y % 400 = 0) then 29 else 28)
  else if mo = 4 || mo = 6 || mo = 9 || mo = 11 then 30
  else 31

/-- The range validation performed by the `datetime.datetime` constructor
(`MINYEAR = 1`, `MAXYEAR = 9999`, day bounded by the month length,
no leap seconds). -/
def validDatetime (t : PyDatetime) : Bool :=
  decide (1 ≤ t.y ∧ t.y ≤ 9999 ∧ 1 ≤ t.mo ∧ t.mo ≤ 12 ∧
    1 ≤ t.d ∧ t.d ≤ daysInMonth t.y t.mo ∧ t.h ≤ 23 ∧ t.mi ≤ 59 ∧ t.s ≤ 59)

def fieldGet (ps : List (FSpec × Nat)) (f : FSpec) : Nat :=
  match ps.lookup f with
  | some v => v
  | none => 0

/-- `datetime.datetime.strptime(s, fmt)` for the two all-field formats the
source uses: match the directive patterns against the whole string
(failing when unconverted data remains) and validate the ranges; `none` is
the `ValueError` outcome. -/
def strptime (fmt : List FSpec) (s : String) : Option PyDatetime :=
  match matchFields fmt s.toList with
  | some (vals, []) =>
    let ps := fmt.zip vals
    let t : PyDatetime :=
      ⟨fieldGet ps .Y, fieldGet ps .m, fieldGet ps .d,
       fieldGet ps .H, fieldGet ps .M, fieldGet ps .S⟩
    if validDatetime t then some t else none
  | _ => none

/-- The format `%Y%m%d%H%M%S` used for the session window. -/
def fmtYmdHMS : List FSpec := [.Y, .m, .d, .H, .M, .S]

/-- The format `%m%d%Y%H%M%S` used for gating filenames. -/
def fmtmdYHMS : List FSpec := [.m, .d, .Y, .H, .M, .S]

/-- Chronological encoding of a `datetime`; on range-validated values the
order of the encodings is the `datetime` comparison order. -/
def PyDatetime.toNat (t : PyDatetime) : Nat :=
  ((((t.y * 100 + t.mo) * 100 + t.d) * 100 + t.h) * 100 + t.mi) * 100 + t.s

/-- Python `needle in hay` on lists of characters. -/
def listContains : List Char → List Char → Bool
  | needle, [] => needle.isEmpty
  | needle, c :: rest => needle.isPrefixOf (c :: rest) || listContains needle rest

/-- Python `needle in hay` for strings. -/
def strContains (hay needle : String) : Bool := listContains needle.toList hay.toList

/-- Python `s[:n]`. -/
def pyTake (s : String) (n : Nat) : String := String.mk (s.toList.take n)

/-- Python `s[-n:]`. -/
def pyLastN (s : String) (n : Nat) : String :=
  String.mk (s.toList.drop (s.toList.length - n))

/-- `os.path.join` for the relative path pieces the source builds. -/
def pjoin (a b : String) : String := a ++ "/" ++ b

/-- Split a character list at every occurrence of `sep`, keeping empty
groups, as Python `str.split` with an explicit separator does. -/
def splitChars (sep : Char) : List Char → List (List Char)
  | [] => [[]]
  | c :: r =>
    let rest := splitChars sep r
    if c = sep then [] :: rest
    else
      match rest with
      | [] => [[c]]
      | g :: gs => (c :: g) :: gs

/-- Python `s.split(sep)` for a one-character separator. -/
def pySplit (s : String) (sep : Char) : List String :=
  (splitChars sep s.toList).map String.mk

/-- Python `s.startswith(p)`. -/
def pyStartsWith (s p : String) : Bool := p.toList.isPrefixOf s.toList

/-- Python `s.endswith(p)`. -/
def pyEndsWith (s p : String) : Bool := p.toList.isSuffixOf s.toList

deriving instance DecidableEq for Except

/-- The `self.logger` call sites of `copyGatingToStudy`, as tagged events. -/
inductive GLog where
  | physNotSet
  | physNotDir
  | gatingNotAccessible
  | parseWarn (f : String)
  | copiedCount (n : Nat)
deriving DecidableEq, Repr

/-- Outcome of `copyGatingToStudy`: the Python return value (`.ok none`
is the bare `return`, `.ok (some 0)` is `return 0`, `.error` an uncaught
exception), the names of the files copied by `shutil.copy2`, and the log. -/
structure GatingResult where
  ret : Except PyErr (Option Nat)
  copied : List String
  log : List GLog
deriving DecidableEq, Repr

/-- The inputs `copyGatingToStudy` reads: the configuration value, the
DICOM tags of the subject, the exam window pieces, and the filesystem
(existing directories and directory listings). -/
structure GatingEnv where
  physiology_data_dir : Option String
  stationName : String
  magneticFieldStrength : String
  studyDate : String
  tStart : String
  tEnd : String
  dirs : List String
  entries : String → List String

/-- `os.path.isdir` over the gating environment. -/
def isdirG (e : GatingEnv) (p : String) : Bool := decide (p ∈ e.dirs)

/-- The date-string assembly `dos + HH + parts[-3] + parts[-2]` of the
loop body of `copyGatingToStudy`, with Python's `IndexError` semantics for
the `parts[1]` / `parts[-4]` / `parts[-3]` accesses (only `ValueError` is
caught by the source's `try`, so an `IndexError` aborts the scan). -/
def fileTokens (iFile : String) : Except PyErr String :=
  let parts := pySplit iFile '_'
  if pyStartsWith iFile "SPU" then
    if parts.length < 2 then .error .indexError
    else
      let tok := parts.getD 1 ""
      if parts.length < 3 then .error .indexError
      else .ok (pyTake tok 8 ++ pyLastN tok 2 ++
        parts.getD (parts.length - 3) "" ++ parts.getD (parts.length - 2) "")
  else
    if parts.length < 4 then .error .indexError
    else
      let tok := parts.getD (parts.length - 4) ""
      .ok (pyTake tok 8 ++ pyLastN tok 2 ++
        parts.getD (parts.length - 3) "" ++ parts.getD (parts.length - 2) "")

/-- Whether a gating filename is selected for copying: its tokens extract,
its timestamp parses, and `(fileDate < t2) and (fileDate > t1)`. -/
def gatingSelect (t1 t2 : PyDatetime) (iFile : String) : Bool :=
  match fileTokens iFile with
  | .error _ => false
  | .ok s =>
    match strptime fmtmdYHMS s with
    | none => false
    | some fd => fd.toNat < t2.toNat && t1.toNat < fd.toNat

/-- The `for iFile in gatingFiles` loop of `copyGatingToStudy`, carrying
the copied files, the counter `c0` and the log; ends with the
`Copied {c0} gating files` log line and `return 0`. -/
def gatingLoop (t1 t2 : PyDatetime) :
    List String → List String → Nat → List GLog → GatingResult
  | [], copied, c0, log => ⟨.ok (some 0), copied, log ++ [.copiedCount c0]⟩
  | f :: rest, copied, c0, log =>
    match fileTokens f with
    | .error e => ⟨.error e, copied, log⟩
    | .ok s =>
      match strptime fmtmdYHMS s with
      | none => gatingLoop t1 t2 rest copied c0 (log ++ [.parseWarn f])
      | some fd =>
        if fd.toNat < t2.toNat && t1.toNat < fd.toNat then
          gatingLoop t1 t2 rest (copied ++ [f]) (c0 + 1) log
        else
          gatingLoop t1 t2 rest copied c0 log

/-- The gating directory path
`os.path.join(physiology_data_dir, stationName, 'gating')`. -/
def gatingDirOf (e : GatingEnv) (pd : String) : String :=
  pjoin (pjoin pd e.stationName) "gating"

/-- `ZfMRFSubject.copyGatingToStudy`.  The guards return `None` after a
log line; the window ends are
`strptime(StudyDate + tStart/tEnd, '%Y%m%d%H%M%S')` whose `ValueError` is
not caught; then the loop over `os.listdir(gatingDir)` runs.  The source
computes the same `gatingDir` in both arms of its
`if "3" in MagneticFieldStrength` branch, which is kept as written. -/
def copyGatingToStudy (e : GatingEnv) : GatingResult :=
  match e.physiology_data_dir with
  | none => ⟨.ok none, [], [.physNotSet]⟩
  | some pd =>
    if ¬ isdirG e pd then ⟨.ok none, [], [.physNotDir]⟩
    else
      let gatingDir :=
        if strContains e.magneticFieldStrength "3" then gatingDirOf e pd
        else gatingDirOf e pd
      if ¬ isdirG e gatingDir then ⟨.ok none, [], [.gatingNotAccessible]⟩
      else
        match strptime fmtYmdHMS (e.studyDate ++ e.tStart) with
        | none => ⟨.error .valueError, [], []⟩
        | some t1 =>
          match strptime fmtYmdHMS (e.studyDate ++ e.tEnd) with
          | none => ⟨.error .valueError, [], []⟩
          | some t2 => gatingLoop t1 t2 (e.entries gatingDir) [] 0 []

theorem gatingLoop_log_mono (t1 t2 : PyDatetime) (fs : List String) (copied : List String)
    (c0 : Nat) (log : List GLog) (x : GLog) (hx : x ∈ log) :
    x ∈ (gatingLoop t1 t2 fs copied c0 log).log := by
  induction fs generalizing copied c0 log with
  | nil => simp [gatingLoop, hx]
  | cons f rest ih =>
    simp only [gatingLoop]
    split
    · simpa using hx
    · split
      · exact ih _ _ _ (by simp [hx])
      · split
        · exact ih _ _ _ hx
        · exact ih _ _ _ hx

theorem gatingLoop_ok_copied (t1 t2 : PyDatetime) (fs copied : List String)
    (c0 : Nat) (log : List GLog)
    (h : (gatingLoop t1 t2 fs copied c0 log).ret = .ok (some 0)) :
    (gatingLoop t1 t2 fs copied c0 log).copied =
      copied ++ fs.filter (gatingSelect t1 t2) := by
  induction fs generalizing copied c0 log with
  | nil => simp [gatingLoop]
  | cons f rest ih =>
    cases hft : fileTokens f with
    | error e =>
      simp only [gatingLoop, hft] at h
      simp at h
    | ok s =>
      cases hst : strptime fmtmdYHMS s with
      | none =>
        simp only [gatingLoop, hft, hst] at h ⊢
        rw [ih _ _ _ h]
        simp [gatingSelect, hft, hst]
      | some fd =>
        by_cases hw : (fd.toNat < t2.toNat && t1.toNat < fd.toNat) = true
        · simp only [gatingLoop, hft, hst, hw, if_true] at h ⊢
          rw [ih _ _ _ h]
          simp [gatingSelect, hft, hst, hw]
        · simp only [gatingLoop, hft, hst, if_neg hw] at h ⊢
          rw [ih _ _ _ h]
          simp only [List.filter_cons]
          rw [if_neg (by simpa [gatingSelect, hft, hst] using hw)]

theorem gatingLoop_ok_count (t1 t2 : PyDatetime) (fs copied : List String)
    (c0 : Nat) (log : List GLog)
    (h : (gatingLoop t1 t2 fs copied c0 log).ret = .ok (some 0)) :
    GLog.copiedCount (c0 + (fs.filter (gatingSelect t1 t2)).length) ∈
      (gatingLoop t1 t2 fs copied c0 log).log := by
  induction fs generalizing copied c0 log with
  | nil => simp [gatingLoop]
  | cons f rest ih =>
    cases hft : fileTokens f with
    | error e =>
      simp only [gatingLoop, hft] at h
      simp at h
    | ok s =>
      cases hst : strptime fmtmdYHMS s with
      | none =>
        simp only [gatingLoop, hft, hst] at h ⊢
        have hsel : gatingSelect t1 t2 f = false := by simp [gatingSelect, hft, hst]
        simpa [List.filter_cons, hsel] using ih _ _ _ h
      | some fd =>
        by_cases hw : (fd.toNat < t2.toNat && t1.toNat < fd.toNat) = true
        · simp only [gatingLoop, hft, hst, hw, if_true] at h ⊢
          have hsel : gatingSelect t1 t2 f = true := by simp [gatingSelect, hft, hst, hw]
          have harith : c0 + ((rest.filter (gatingSelect t1 t2)).length + 1) =
              (c0 + 1) + (rest.filter (gatingSelect t1 t2)).length := by omega
          simpa [List.filter_cons, hsel, harith] using ih _ _ _ h
        · simp only [gatingLoop, hft, hst, if_neg hw] at h ⊢
          have hsel : gatingSelect t1 t2 f = false := by
            simpa [gatingSelect, hft, hst] using hw
          simpa [List.filter_cons, hsel] using ih _ _ _ h

theorem gatingLoop_ok_warn (t1 t2 : PyDatetime) (fs copied : List String)
    (c0 : Nat) (log : List GLog) (f s : String)
    (h : (gatingLoop t1 t2 fs copied c0 log).ret = .ok (some 0))
    (hf : f ∈ fs) (hft : fileTokens f = .ok s)
    (hst : strptime fmtmdYHMS s = none) :
    GLog.parseWarn f ∈ (gatingLoop t1 t2 fs copied c0 log).log := by
  induction fs generalizing copied c0 log with
  | nil => cases hf
  | cons g rest ih =>
    rcases List.mem_cons.mp hf with rfl | hmem
    · simp only [gatingLoop, hft, hst] at h ⊢
      exact gatingLoop_log_mono _ _ _ _ _ _ _ (by simp)
    · cases hgt : fileTokens g with
      | error e =>
        simp only [gatingLoop, hgt] at h
        simp at h
      | ok sg =>
        cases hgs : strptime fmtmdYHMS sg with
        | none =>
          simp only [gatingLoop, hgt, hgs] at h ⊢
          exact ih _ _ _ h hmem
        | some fd =>
          by_cases hw : (fd.toNat < t2.toNat && t1.toNat < fd.toNat) = true
          · simp only [gatingLoop, hgt, hgs, hw, if_true] at h ⊢
            exact ih _ _ _ h hmem
          · simp only [gatingLoop, hgt, hgs, if_neg hw] at h ⊢
            exact ih _ _ _ h hmem

theorem copyGatingToStudy_run (e : GatingEnv) (pd : String) (t1 t2 : PyDatetime)
    (hpd : e.physiology_data_dir = some pd)
    (h1 : isdirG e pd = true)
    (h2 : isdirG e (gatingDirOf e pd) = true)
    (ht1 : strptime fmtYmdHMS (e.studyDate ++ e.tStart) = some t1)
    (ht2 : strptime fmtYmdHMS (e.studyDate ++ e.tEnd) = some t2) :
    copyGatingToStudy e = gatingLoop t1 t2 (e.entries (gatingDirOf e pd)) [] 0 [] := by
  simp [copyGatingToStudy, hpd, h1, h2, ht1, ht2]

/-- A concrete gating environment: station `ST`, study date 2023-06-15,
exam window 08:30:00 to 10:00:00, with the given gating directory
listing. -/
def gEnvWith (files : List String) : GatingEnv :=
  { physiology_data_dir := some "phys"
    stationName := "ST"
    magneticFieldStrength := "3T"
    studyDate := "20230615"
    tStart := "083000"
    tEnd := "100000"
    dirs := ["phys", "phys/ST/gating"]
    entries := fun p => if p = "phys/ST/gating" then files else [] }

/-- C1: for every file in the gating directory whose filename yields a
parseable timestamp, `copyGatingToStudy` selects and copies the file if
and only if that timestamp lies strictly between the session window start
and window end (boundary-equal timestamps are excluded); stated for a run
of the scan that completed (returned 0). -/
theorem copyGatingToStudy_window_iff (e : GatingEnv) (pd f s : String)
    (fd t1 t2 : PyDatetime)
    (hpd : e.physiology_data_dir = some pd)
    (ht1 : strptime fmtYmdHMS (e.studyDate ++ e.tStart) = some t1)
    (ht2 : strptime fmtYmdHMS (e.studyDate ++ e.tEnd) = some t2)
    (hf : f ∈ e.entries (gatingDirOf e pd))
    (hft : fileTokens f = .ok s)
    (hfd : strptime fmtmdYHMS s = some fd)
    (hret : (copyGatingToStudy e).ret = .ok (some 0)) :
    f ∈ (copyGatingToStudy e).copied ↔
      (t1.toNat < fd.toNat ∧ fd.toNat < t2.toNat) := by
  have h1 : isdirG e pd = true := by
    by_contra hc
    simp [copyGatingToStudy, hpd, hc] at hret
  have h2 : isdirG e (gatingDirOf e pd) = true := by
    by_contra hc
    simp [copyGatingToStudy, hpd, h1, hc] at hret
  rw [copyGatingToStudy_run e pd t1 t2 hpd h1 h2 ht1 ht2] at hret ⊢
  rw [gatingLoop_ok_copied _ _ _ _ _ _ hret]
  simp only [List.nil_append, List.mem_filter]
  constructor
  · rintro ⟨-, hsel⟩
    simp [gatingSelect, hft, hfd] at hsel
    exact ⟨hsel.2, hsel.1⟩
  · rintro ⟨ha, hb⟩
    exact ⟨hf, by simp [gatingSelect, hft, hfd, ha, hb]⟩

/-- Witness for C1: a gating file stamped 2023-06-15 09:00:00 inside the
window is copied. -/
theorem copyGatingToStudy_window_iff_witness :
    "ECG_0615202309_00_00_dat" ∈ (copyGatingToStudy (gEnvWith ["ECG_0615202309_00_00_dat"])).copied :=
  (copyGatingToStudy_window_iff (gEnvWith ["ECG_0615202309_00_00_dat"]) "phys"
      "ECG_0615202309_00_00_dat" "06152023090000"
      ⟨2023, 6, 15, 9, 0, 0⟩ ⟨2023, 6, 15, 8, 30, 0⟩ ⟨2023, 6, 15, 10, 0, 0⟩
      (by decide) (by decide) (by decide) (by decide) (by decide) (by decide)
      (by decide)).mpr (by decide)

/-- C5 counterexample: a filename that does not split into the expected
number of underscore-delimited parts is not logged-and-skipped; the scan
raises an uncaught IndexError (the except clause of the source only
catches ValueError). -/
theorem copyGating_malformed_raises :
    (copyGatingToStudy (gEnvWith ["abc"])).ret = .error .indexError := by decide

/-- C5 (amended): a file whose assembled date-string fails to parse is
logged and skipped and the scan continues to completion; however a
filename with too few underscore-delimited parts (fewer than 4 for
non-SPU names, fewer than 3 for SPU names) raises an uncaught IndexError
that aborts the scan. -/
theorem copyGating_parsefail_skipped (e : GatingEnv) (pd f s : String)
    (t1 t2 : PyDatetime)
    (hpd : e.physiology_data_dir = some pd)
    (ht1 : strptime fmtYmdHMS (e.studyDate ++ e.tStart) = some t1)
    (ht2 : strptime fmtYmdHMS (e.studyDate ++ e.tEnd) = some t2)
    (hf : f ∈ e.entries (gatingDirOf e pd))
    (hft : fileTokens f = .ok s)
    (hst : strptime fmtmdYHMS s = none)
    (hret : (copyGatingToStudy e).ret = .ok (some 0)) :
    GLog.parseWarn f ∈ (copyGatingToStudy e).log ∧
      f ∉ (copyGatingToStudy e).copied := by
  have h1 : isdirG e pd = true := by
    by_contra hc
    simp [copyGatingToStudy, hpd, hc] at hret
  have h2 : isdirG e (gatingDirOf e pd) = true := by
    by_contra hc
    simp [copyGatingToStudy, hpd, h1, hc] at hret
  rw [copyGatingToStudy_run e pd t1 t2 hpd h1 h2 ht1 ht2] at hret ⊢
  refine ⟨gatingLoop_ok_warn _ _ _ _ _ _ _ _ hret hf hft hst, ?_⟩
  rw [gatingLoop_ok_copied _ _ _ _ _ _ hret]
  simp [List.mem_filter, gatingSelect, hft, hst]

/-- Witness for the amended C5: the file a_b_c_d yields the unparseable
date-string aabc, is warned about and skipped, and the scan completes. -/
theorem copyGating_parsefail_skipped_witness :
    GLog.parseWarn "a_b_c_d" ∈ (copyGatingToStudy (gEnvWith ["a_b_c_d"])).log ∧
      "a_b_c_d" ∉ (copyGatingToStudy (gEnvWith ["a_b_c_d"])).copied :=
  copyGating_parsefail_skipped (gEnvWith ["a_b_c_d"]) "phys" "a_b_c_d" "aabc"
    ⟨2023, 6, 15, 8, 30, 0⟩ ⟨2023, 6, 15, 10, 0, 0⟩
    (by decide) (by decide) (by decide) (by decide) (by decide) (by decide)
    (by decide)

/-- C8 counterexample: two files are copied but the return value is the
constant 0, not the copied count 2. -/
theorem copyGating_const_return :
    (copyGatingToStudy (gEnvWith ["ECG_0615202309_00_00_dat", "ECG_0615202309_30_00_dat"])).copied.length = 2 ∧
      (copyGatingToStudy (gEnvWith ["ECG_0615202309_00_00_dat", "ECG_0615202309_30_00_dat"])).ret ≠ .ok (some 2) ∧
      (copyGatingToStudy (gEnvWith ["ECG_0615202309_00_00_dat", "ECG_0615202309_30_00_dat"])).ret = .ok (some 0) := by
  decide

/-- C8 (amended): on a completed scan the return value is the constant 0;
the number of files copied is reported through the log event `Copied N
gating files`, not through the return value. -/
theorem copyGating_count_logged (e : GatingEnv)
    (hret : (copyGatingToStudy e).ret = .ok (some 0)) :
    GLog.copiedCount (copyGatingToStudy e).copied.length ∈
      (copyGatingToStudy e).log := by
  cases hpd : e.physiology_data_dir with
  | none => simp [copyGatingToStudy, hpd] at hret
  | some pd =>
    have h1 : isdirG e pd = true := by
      by_contra hc
      simp [copyGatingToStudy, hpd, hc] at hret
    have h2 : isdirG e (gatingDirOf e pd) = true := by
      by_contra hc
      simp [copyGatingToStudy, hpd, h1, hc] at hret
    cases ht1 : strptime fmtYmdHMS (e.studyDate ++ e.tStart) with
    | none => simp [copyGatingToStudy, hpd, h1, h2, ht1] at hret
    | some t1 =>
      cases ht2 : strptime fmtYmdHMS (e.studyDate ++ e.tEnd) with
      | none => simp [copyGatingToStudy, hpd, h1, h2, ht1, ht2] at hret
      | some t2 =>
        rw [copyGatingToStudy_run e pd t1 t2 hpd h1 h2 ht1 ht2] at hret ⊢
        rw [gatingLoop_ok_copied _ _ _ _ _ _ hret]
        simpa using gatingLoop_ok_count _ _ _ _ _ _ hret

/-- Witness for the amended C8: the two-file run logs a copied count
of 2. -/
theorem copyGating_count_logged_witness :
    GLog.copiedCount (copyGatingToStudy (gEnvWith ["ECG_0615202309_00_00_dat", "ECG_0615202309_30_00_dat"])).copied.length ∈
      (copyGatingToStudy (gEnvWith ["ECG_0615202309_00_00_dat", "ECG_0615202309_30_00_dat"])).log :=
  copyGating_count_logged (gEnvWith ["ECG_0615202309_00_00_dat", "ECG_0615202309_30_00_dat"]) (by decide)

/-- C9 counterexample: with gating file SPU_20230615_090000_RESP and
window 20230615083000 to 20230615100000 the file is not copied; the scan
completes with zero copies, contradicting the claimed count of 1. -/
theorem copyGating_SPU_scenario_refuted :
    (copyGatingToStudy (gEnvWith ["SPU_20230615_090000_RESP"])).copied = [] ∧
      (copyGatingToStudy (gEnvWith ["SPU_20230615_090000_RESP"])).copied.length ≠ 1 := by
  decide

/-- C9 (amended): the assembled date-string of SPU_20230615_090000_RESP
(the date token in YYYYMMDD order where the code expects MMDDYYYY followed
by an hour pair) fails to parse, so the scan logs the parse warning, skips
the file, completes with return value 0 and reports a copied count of 0. -/
theorem copyGating_SPU_scenario_actual :
    GLog.parseWarn "SPU_20230615_090000_RESP" ∈
        (copyGatingToStudy (gEnvWith ["SPU_20230615_090000_RESP"])).log ∧
      (copyGatingToStudy (gEnvWith ["SPU_20230615_090000_RESP"])).ret = .ok (some 0) ∧
      GLog.copiedCount 0 ∈ (copyGatingToStudy (gEnvWith ["SPU_20230615_090000_RESP"])).log := by
  decide

/-- Python `int(s)` success test for directory names: an optional sign
followed by one or more digits (the stdlib `int` additionally strips
whitespace and allows inner underscores; those forms do not occur in the
sub-series names modelled here). -/
def isPyInt (s : String) : Bool :=
  match s.toList with
  | '+' :: r => !r.isEmpty && r.all Char.isDigit
  | '-' :: r => !r.isEmpty && r.all Char.isDigit
  | r => !r.isEmpty && r.all Char.isDigit

/-- The `self.logger` call sites of the spectra methods, as tagged
events. -/
inductive SLog where
  | sageNotSet
  | searchingIDs
  | foundPhase1 (d : String)
  | expectNotFound (d : String)
  | couldNotFindIDs
  | couldNotByPatID
  | searchingUID
  | foundPhase2 (d : String)
  | foundNotDir (d : String)
  | couldNotFind
  | copyInfo (src dst : String)
deriving DecidableEq, Repr

/-- The subject state the spectra methods read and write: the subject
tags, the `sage_data_dir` configuration value, and the filesystem
(existing directories, existing files, directory listings, and the
listing of the process working directory, which is what `os.listdir`
returns when handed `None`).  `sageScan` models the external `spydcmtk`
archive scan of phase 2. -/
structure Zf where
  sage_data_dir : Option String
  patID : Option String
  studyID : String
  scannerStudyID : Option String
  studyInstanceUID : String
  spectraDirPath : String
  dirs : List String
  files : List String
  entries : String → List String
  cwdEntries : List String
  sageScan : Option String → Option String

/-- `os.path.isdir`. -/
def isdirZ (z : Zf) (p : String) : Bool := decide (p ∈ z.dirs)

/-- `os.path.isfile`; the empty string is never an existing file. -/
def isfileZ (z : Zf) (p : String) : Bool := decide (p ≠ "" ∧ p ∈ z.files)

/-- `os.listdir` on a named path: listing a missing directory raises. -/
def listdirE (z : Zf) (p : String) : Except PyErr (List String) :=
  if p ∈ z.dirs then .ok (z.entries p) else .error .osError

/-- `os.listdir(sage_data_dir)`: CPython treats a `None` path as the
current working directory. -/
def listdirRoot (z : Zf) : Except PyErr (List String) :=
  match z.sage_data_dir with
  | none => .ok z.cwdEntries
  | some q => listdirE z q

/-- `os.path.join(sage_data_dir, iDir, studyID)`: joining onto a `None`
root raises TypeError. -/
def pjoinSage : Option String → String → String → Except PyErr String
  | none, _, _ => .error .typeError
  | some a, b, c => .ok (pjoin (pjoin a b) c)

/-- Modelled from the spec: the external subject layer's
`self._getDir(['RAW', 'SPECTRA'], BUILD_IF_NEED=True)` (the `hurahura`
collaborator, not part of this repository) returns the session's
`RAW/SPECTRA` path and, because `BUILD_IF_NEED` is true, creates that
directory (empty) when it does not exist yet. -/
def getSpectraDir (z : Zf) : String × Zf :=
  (z.spectraDirPath,
   if z.spectraDirPath ∈ z.dirs then z
   else { z with dirs := z.spectraDirPath :: z.dirs,
                 entries := fun q => if q = z.spectraDirPath then [] else z.entries q })

/-- The state after `getSpectraDir` has built the spectra directory. -/
def buildSpectra (z : Zf) : Zf := (getSpectraDir z).2

/-- `ZfMRFSubject.hasSpectra`: list the (just ensured) spectra directory
and test for content. -/
def hasSpectra (z : Zf) : Bool × Zf :=
  let pz := getSpectraDir z
  (decide (0 < ((pz.2).entries pz.1).length), pz.2)

/-- The inner loop of `getSpectraPDF_dict`: the last listed entry
starting with `P` and ending with `.7.PDF` wins; the initial value is the
empty string set before the inner scan. -/
def subSeriesDoc (dirPath : String) (subs : List String) : String :=
  subs.foldl
    (fun acc iSub =>
      if pyStartsWith iSub "P" && pyEndsWith iSub ".7.PDF" then pjoin dirPath iSub else acc)
    ""

/-- The `for iDir in os.listdir(...)` loop of `getSpectraPDF_dict`.  A
name that `int` cannot parse raises ValueError — the source's `except
NameError` clause does not catch it — and an integer-named entry that is
not a directory makes the inner `os.listdir` raise. -/
def specLoop (z : Zf) (p : String) :
    List String → List (String × String) → Except PyErr (List (String × String))
  | [], acc => .ok acc
  | iDir :: rest, acc =>
    if ¬ isPyInt iDir then .error .valueError
    else
      match listdirE z (pjoin p iDir) with
      | .error e => .error e
      | .ok subs => specLoop z p rest (acc ++ [(iDir, subSeriesDoc (pjoin p iDir) subs)])

/-- `ZfMRFSubject.getSpectraPDF_dict`. -/
def getSpectraPDF_dict (z : Zf) : Except PyErr (List (String × String)) × Zf :=
  let pz := getSpectraDir z
  (specLoop pz.2 pz.1 ((pz.2).entries pz.1) [], pz.2)

/-- `ZfMRFSubject.isSpectraComplete`: incomplete on an empty spectra
directory, otherwise every recorded sub-series document path must be an
existing file. -/
def isSpectraComplete (z : Zf) : Except PyErr Bool × Zf :=
  let hz := hasSpectra z
  if ¬ hz.1 then (.ok false, hz.2)
  else
    match getSpectraPDF_dict hz.2 with
    | (.ok d, z2) => (.ok (d.all fun kv => isfileZ z2 kv.2), z2)
    | (.error e, z2) => (.error e, z2)

/-- The effective study identifier of `_findSpectraInSAGE`: `StudyID`,
or `ScannerStudyID` when `StudyID` is the sentinel string `0`. -/
def effStudyID (z : Zf) : Option String :=
  if z.studyID = "0" then z.scannerStudyID else some z.studyID

/-- The phase-1 `for iDir in os.listdir(sage_data_dir)` loop: on a
listing entry containing the patient ID, join the candidate study path
(raising TypeError when the root is `None`) and return it when it is a
directory, else log and keep scanning. -/
def phase1Loop (z : Zf) (sage : Option String) (patID studyID : String) :
    List String → List SLog → Except PyErr (Option String) × List SLog
  | [], log => (.ok none, log)
  | iDir :: rest, log =>
    if strContains iDir patID then
      match pjoinSage sage iDir studyID with
      | .error e => (.error e, log)
      | .ok sageStudyDir =>
        if isdirZ z sageStudyDir then
          (.ok (some sageStudyDir), log ++ [.foundPhase1 sageStudyDir])
        else
          phase1Loop z sage patID studyID rest (log ++ [.expectNotFound sageStudyDir])
    else phase1Loop z sage patID studyID rest log

/-- Phase 2 of `_findSpectraInSAGE`: `sageScan` stands for the external
`spydcmtk` scan (`ListOfDicomStudies.setFromDirectory` followed by
`getStudyByTag('StudyInstanceUID', ...)` and `getTopDir()`), modelled
from the spec as a lookup from the archive root to the matched study's
top directory. -/
def findPhase2 (z : Zf) (log : List SLog) : Except PyErr (Option String) × List SLog :=
  let log2 := log ++ [SLog.searchingUID]
  match z.sageScan z.sage_data_dir with
  | some d =>
    if isdirZ z d then (.ok (some d), log2 ++ [.foundPhase2 d])
    else (.ok none, log2 ++ [.foundNotDir d, .couldNotFind])
  | none => (.ok none, log2 ++ [.couldNotFind])

/-- The `sage_data_dir is None` error log line (emitted without
returning). -/
def sageUnsetLog (z : Zf) : List SLog :=
  match z.sage_data_dir with
  | none => [SLog.sageNotSet]
  | some _ => []

/-- The logging prelude of `_findSpectraInSAGE`: the unset-root error
line followed by the searching line. -/
def sageLog0 (z : Zf) : List SLog := sageUnsetLog z ++ [SLog.searchingIDs]

/-- The phase-1 outcome on its own (no logging): what the identifier
probe of `_findSpectraInSAGE` yields. -/
def phase1Of (z : Zf) : Except PyErr (Option String) :=
  match z.patID, effStudyID z with
  | some p, some sid =>
    match listdirRoot z with
    | .error e => .error e
    | .ok l => (phase1Loop z z.sage_data_dir p sid l []).1
  | _, _ => .ok none

/-- `ZfMRFSubject._findSpectraInSAGE`: an unset `sage_data_dir` is only
logged, then phase 1 (identifier probe over the archive root listing)
runs, and phase 2 (UID archive scan) runs only when phase 1 finds
nothing. -/
def _findSpectraInSAGE (z : Zf) : Except PyErr (Option String) × List SLog :=
  match z.patID, effStudyID z with
  | some p, some sid =>
    match listdirRoot z with
    | .error e => (.error e, sageLog0 z)
    | .ok l =>
      match phase1Loop z z.sage_data_dir p sid l (sageLog0 z) with
      | (.ok (some d), log) => (.ok (some d), log)
      | (.ok none, log) => findPhase2 z (log ++ [.couldNotByPatID])
      | (.error e, log) => (.error e, log)
  | _, _ => findPhase2 z (sageLog0 z ++ [.couldNotFindIDs, .couldNotByPatID])

/-- Outcome of `copySpectraToStudy`: the return code, the `copytree`
source and destination when a copy was performed, the log, and the
resulting subject state. -/
structure SpecCopyResult where
  ret : Except PyErr Nat
  copied : Option (String × String)
  log : List SLog
  state : Zf

/-- The tail of `copySpectraToStudy` after the force/content guard: log
the unset root, locate, and either `copytree` into the (ensured) spectra
directory returning 0, or return 1 when nothing was located. -/
def copySpectraRest (z : Zf) : SpecCopyResult :=
  match _findSpectraInSAGE z with
  | (.error e, log) => ⟨.error e, none, sageUnsetLog z ++ log, z⟩
  | (.ok (some sageDir), log) =>
    let pz := getSpectraDir z
    ⟨.ok 0, some (sageDir, pz.1), sageUnsetLog z ++ log ++ [.copyInfo sageDir pz.1], pz.2⟩
  | (.ok none, log) => ⟨.ok 1, none, sageUnsetLog z ++ log, z⟩

/-- `ZfMRFSubject.copySpectraToStudy`: with `FORCE` false, a destination
that already has content short-circuits to success 0 (Python's `and`
evaluates `hasSpectra` only when `FORCE` is false). -/
def copySpectraToStudy (z : Zf) (FORCE : Bool) : SpecCopyResult :=
  if FORCE then copySpectraRest z
  else
    let hz := hasSpectra z
    if hz.1 then ⟨.ok 0, none, [], hz.2⟩
    else copySpectraRest hz.2

@[simp] theorem getSpectraDir_fst (z : Zf) : (getSpectraDir z).1 = z.spectraDirPath := rfl

@[simp] theorem getSpectraDir_snd (z : Zf) : (getSpectraDir z).2 = buildSpectra z := rfl

theorem buildSpectra_path (z : Zf) : (buildSpectra z).spectraDirPath = z.spectraDirPath := by
  simp only [buildSpectra, getSpectraDir]
  split <;> rfl

theorem buildSpectra_files (z : Zf) : (buildSpectra z).files = z.files := by
  simp only [buildSpectra, getSpectraDir]
  split <;> rfl

theorem buildSpectra_mem_dirs (z : Zf) : z.spectraDirPath ∈ (buildSpectra z).dirs := by
  simp only [buildSpectra, getSpectraDir]
  split
  · assumption
  · simp

theorem mem_dirs_buildSpectra (z : Zf) (q : String) (h : q ∈ z.dirs) :
    q ∈ (buildSpectra z).dirs := by
  simp only [buildSpectra, getSpectraDir]
  split
  · exact h
  · simp [h]

theorem getSpectraDir_build (z : Zf) :
    getSpectraDir (buildSpectra z) = (z.spectraDirPath, buildSpectra z) := by
  simp only [getSpectraDir, buildSpectra_path]
  rw [if_pos (buildSpectra_mem_dirs z)]

theorem isfileZ_build (z : Zf) (q : String) : isfileZ (buildSpectra z) q = isfileZ z q := by
  simp only [isfileZ, buildSpectra_files]

theorem hasSpectra_fst (z : Zf) :
    (hasSpectra z).1 = decide (0 < ((buildSpectra z).entries z.spectraDirPath).length) := rfl

theorem hasSpectra_snd (z : Zf) : (hasSpectra z).2 = buildSpectra z := rfl

theorem getSpectraPDF_dict_build (z : Zf) :
    getSpectraPDF_dict (buildSpectra z) = ((getSpectraPDF_dict z).1, buildSpectra z) := by
  simp only [getSpectraPDF_dict, getSpectraDir_build, getSpectraDir_fst, getSpectraDir_snd]

theorem isSpectraComplete_fst (z : Zf) :
    (isSpectraComplete z).1 =
      if 0 < ((buildSpectra z).entries z.spectraDirPath).length then
        match (getSpectraPDF_dict z).1 with
        | .ok d => .ok (d.all fun kv => isfileZ z kv.2)
        | .error e => .error e
      else .ok false := by
  by_cases h : 0 < ((buildSpectra z).entries z.spectraDirPath).length
  · have hb : (hasSpectra z).1 = true := by rw [hasSpectra_fst]; simpa using h
    simp only [isSpectraComplete, hb, if_pos h, Bool.not_true, Bool.false_eq_true, if_false]
    rw [hasSpectra_snd, getSpectraPDF_dict_build]
    cases hd : (getSpectraPDF_dict z).1 with
    | error e => rfl
    | ok d => simp [isfileZ_build]
  · have hb : (hasSpectra z).1 = false := by rw [hasSpectra_fst]; simpa using h
    simp only [isSpectraComplete, hb, if_neg h]
    rfl

theorem isSpectraComplete_snd (z : Zf) : (isSpectraComplete z).2 = buildSpectra z := by
  by_cases hb : (hasSpectra z).1 = true
  · simp only [isSpectraComplete, hb, Bool.not_true, Bool.false_eq_true, if_false]
    rw [hasSpectra_snd, getSpectraPDF_dict_build]
    cases hd : (getSpectraPDF_dict z).1 with
    | error e => rfl
    | ok d => rfl
  · have hb2 : (hasSpectra z).1 = false := by simpa using hb
    simp only [isSpectraComplete, hb2]
    rfl

theorem phase1Loop_fst_log (z : Zf) (sage : Option String) (p sid : String)
    (l : List String) (log log2 : List SLog) :
    (phase1Loop z sage p sid l log).1 = (phase1Loop z sage p sid l log2).1 := by
  induction l generalizing log log2 with
  | nil => rfl
  | cons iDir rest ih =>
    simp only [phase1Loop]
    split
    · cases hj : pjoinSage sage iDir sid with
      | error e => simp
      | ok d =>
        simp only []
        split
        · rfl
        · exact ih _ _
    · exact ih _ _

theorem phase1Loop_log_mono (z : Zf) (sage : Option String) (p sid : String)
    (l : List String) (log : List SLog) (x : SLog) (hx : x ∈ log) :
    x ∈ (phase1Loop z sage p sid l log).2 := by
  induction l generalizing log with
  | nil => exact hx
  | cons iDir rest ih =>
    simp only [phase1Loop]
    split
    · cases hj : pjoinSage sage iDir sid with
      | error e => exact hx
      | ok d =>
        simp only []
        split
        · simp [hx]
        · exact ih _ (by simp [hx])
    · exact ih _ hx

theorem phase1Loop_noUID (z : Zf) (sage : Option String) (p sid : String)
    (l : List String) (log : List SLog) (hx : SLog.searchingUID ∉ log) :
    SLog.searchingUID ∉ (phase1Loop z sage p sid l log).2 := by
  induction l generalizing log with
  | nil => exact hx
  | cons iDir rest ih =>
    simp only [phase1Loop]
    split
    · cases hj : pjoinSage sage iDir sid with
      | error e => exact hx
      | ok d =>
        simp only []
        split
        · simp [hx]
        · exact ih _ (by simp [hx])
    · exact ih _ hx

theorem phase1Loop_none_match (z : Zf) (sage : Option String) (p sid : String)
    (l : List String) (log : List SLog) (h : ∀ e ∈ l, strContains e p = false) :
    phase1Loop z sage p sid l log = (.ok none, log) := by
  induction l generalizing log with
  | nil => rfl
  | cons iDir rest ih =>
    have h0 : strContains iDir p = false := h iDir (by simp)
    simp only [phase1Loop, h0, Bool.false_eq_true, if_false]
    exact ih _ fun e he => h e (by simp [he])

theorem phase1Loop_match_typeError (z : Zf) (p sid : String)
    (l : List String) (log : List SLog) (h : ∃ e ∈ l, strContains e p = true) :
    (phase1Loop z none p sid l log).1 = .error .typeError := by
  induction l generalizing log with
  | nil => simp at h
  | cons iDir rest ih =>
    by_cases h0 : strContains iDir p = true
    · simp only [phase1Loop, h0, if_true]
      rfl
    · simp only [phase1Loop, h0, if_false]
      rcases h with ⟨e, he, hc⟩
      rcases List.mem_cons.mp he with rfl | hmem
      · exact absurd hc h0
      · exact ih _ ⟨e, hmem, hc⟩

theorem findPhase2_log_mono (z : Zf) (log : List SLog) (x : SLog) (hx : x ∈ log) :
    x ∈ (findPhase2 z log).2 := by
  simp only [findPhase2]
  cases hs : z.sageScan z.sage_data_dir with
  | none => simp [hx]
  | some d =>
    simp only []
    split <;> simp [hx]

theorem findPhase2_hasUID (z : Zf) (log : List SLog) :
    SLog.searchingUID ∈ (findPhase2 z log).2 := by
  simp only [findPhase2]
  cases hs : z.sageScan z.sage_data_dir with
  | none => simp
  | some d =>
    simp only []
    split <;> simp

theorem findPhase2_none_scan (z : Zf) (log : List SLog)
    (h : (findPhase2 z log).1 = .ok none) :
    ∀ d, z.sageScan z.sage_data_dir = some d → isdirZ z d = false := by
  intro d hd
  simp only [findPhase2, hd] at h
  by_cases hi : isdirZ z d = true
  · simp [hi] at h
  · simpa using hi

theorem sageLog0_noUID (z : Zf) : SLog.searchingUID ∉ sageLog0 z := by
  cases h : z.sage_data_dir <;> simp [sageLog0, sageUnsetLog, h]

/-- C2: for every session the spectra locator returns at most one
directory, and the phase-1 identifier match takes precedence: when phase
1 finds a directory that directory is returned and the phase-2 archive
scan never executes (its searchingUID log marker is absent); phase 2 runs
only when phase 1 yields nothing; and None is returned only after both
phases are exhausted (phase 1 found nothing and the phase-2 scan produced
nothing usable). -/
theorem findSpectraInSAGE_phase_precedence (z : Zf) :
    (∀ d, phase1Of z = .ok (some d) →
        (_findSpectraInSAGE z).1 = .ok (some d) ∧
          SLog.searchingUID ∉ (_findSpectraInSAGE z).2) ∧
      (SLog.searchingUID ∈ (_findSpectraInSAGE z).2 → phase1Of z = .ok none) ∧
      ((_findSpectraInSAGE z).1 = .ok none →
        phase1Of z = .ok none ∧
          ∀ d, z.sageScan z.sage_data_dir = some d → isdirZ z d = false) := by
  cases hp : z.patID with
  | none =>
    have hph : phase1Of z = .ok none := by simp [phase1Of, hp]
    have hfind : _findSpectraInSAGE z =
        findPhase2 z (sageLog0 z ++ [.couldNotFindIDs, .couldNotByPatID]) := by
      simp [_findSpectraInSAGE, hp]
    refine ⟨?_, fun _ => hph, ?_⟩
    · intro d hd
      rw [hph] at hd
      simp at hd
    · intro hn
      rw [hfind] at hn
      exact ⟨hph, findPhase2_none_scan z _ hn⟩
  | some p =>
    cases hsid : effStudyID z with
    | none =>
      have hph : phase1Of z = .ok none := by simp [phase1Of, hp, hsid]
      have hfind : _findSpectraInSAGE z =
          findPhase2 z (sageLog0 z ++ [.couldNotFindIDs, .couldNotByPatID]) := by
        simp [_findSpectraInSAGE, hp, hsid]
      refine ⟨?_, fun _ => hph, ?_⟩
      · intro d hd
        rw [hph] at hd
        simp at hd
      · intro hn
        rw [hfind] at hn
        exact ⟨hph, findPhase2_none_scan z _ hn⟩
    | some sid =>
      cases hl : listdirRoot z with
      | error e =>
        have hph : phase1Of z = .error e := by simp [phase1Of, hp, hsid, hl]
        have hfind : _findSpectraInSAGE z = (.error e, sageLog0 z) := by
          simp [_findSpectraInSAGE, hp, hsid, hl]
        refine ⟨?_, ?_, ?_⟩
        · intro d hd
          rw [hph] at hd
          simp at hd
        · intro hUID
          rw [hfind] at hUID
          exact absurd hUID (sageLog0_noUID z)
        · intro hn
          rw [hfind] at hn
          simp at hn
      | ok l =>
        rcases hloop : phase1Loop z z.sage_data_dir p sid l (sageLog0 z) with ⟨r, lg⟩
        have hph : phase1Of z = r := by
          simp only [phase1Of, hp, hsid, hl]
          rw [phase1Loop_fst_log z z.sage_data_dir p sid l [] (sageLog0 z), hloop]
        have hnoUID : SLog.searchingUID ∉ lg := by
          have h2 := phase1Loop_noUID z z.sage_data_dir p sid l (sageLog0 z) (sageLog0_noUID z)
          rw [hloop] at h2
          exact h2
        cases r with
        | error e =>
          have hfind : _findSpectraInSAGE z = (.error e, lg) := by
            simp only [_findSpectraInSAGE, hp, hsid, hl, hloop]
          refine ⟨?_, ?_, ?_⟩
          · intro d hd
            rw [hph] at hd
            simp at hd
          · intro hUID
            rw [hfind] at hUID
            exact absurd hUID hnoUID
          · intro hn
            rw [hfind] at hn
            simp at hn
        | ok ro =>
          cases ro with
          | some d0 =>
            have hfind : _findSpectraInSAGE z = (.ok (some d0), lg) := by
              simp only [_findSpectraInSAGE, hp, hsid, hl, hloop]
            refine ⟨?_, ?_, ?_⟩
            · intro d hd
              rw [hph] at hd
              rw [hfind]
              simp only [Except.ok.injEq, Option.some.injEq] at hd
              subst hd
              exact ⟨rfl, hnoUID⟩
            · intro hUID
              rw [hfind] at hUID
              exact absurd hUID hnoUID
            · intro hn
              rw [hfind] at hn
              simp at hn
          | none =>
            have hfind : _findSpectraInSAGE z =
                findPhase2 z (lg ++ [.couldNotByPatID]) := by
              simp only [_findSpectraInSAGE, hp, hsid, hl, hloop]
            refine ⟨?_, fun _ => hph, ?_⟩
            · intro d hd
              rw [hph] at hd
              simp at hd
            · intro hn
              rw [hfind] at hn
              exact ⟨hph, findPhase2_none_scan z _ hn⟩

/-- C3: isSpectraComplete returns false on an empty spectra directory;
false when some recorded sub-series document path is missing (the empty
string, or not an existing file); and true only when every recorded
sub-series document path is a path to an existing file. -/
theorem isSpectraComplete_spec (z : Zf) :
    ((buildSpectra z).entries z.spectraDirPath = [] →
        (isSpectraComplete z).1 = .ok false) ∧
      (∀ d kv, (getSpectraPDF_dict z).1 = .ok d → kv ∈ d →
        isfileZ z kv.2 = false → (isSpectraComplete z).1 = .ok false) ∧
      (∀ d, (isSpectraComplete z).1 = .ok true → (getSpectraPDF_dict z).1 = .ok d →
        ∀ kv ∈ d, isfileZ z kv.2 = true) := by
  refine ⟨?_, ?_, ?_⟩
  · intro h
    rw [isSpectraComplete_fst, h]
    simp
  · intro d kv hd hkv hfile
    rw [isSpectraComplete_fst]
    by_cases hlen : 0 < ((buildSpectra z).entries z.spectraDirPath).length
    · rw [if_pos hlen, hd]
      show Except.ok (d.all fun kv2 => isfileZ z kv2.2) = Except.ok false
      have hall : (d.all fun kv2 => isfileZ z kv2.2) = false := by
        by_contra hc
        have ht : (d.all fun kv2 => isfileZ z kv2.2) = true := by
          cases hb : d.all fun kv2 => isfileZ z kv2.2 with
          | true => rfl
          | false => exact absurd hb hc
        have := List.all_eq_true.mp ht kv hkv
        rw [hfile] at this
        cases this
      rw [hall]
    · rw [if_neg hlen]
  · intro d hcomp hd kv hkv
    rw [isSpectraComplete_fst] at hcomp
    by_cases hlen : 0 < ((buildSpectra z).entries z.spectraDirPath).length
    · rw [if_pos hlen, hd] at hcomp
      have hcomp2 : Except.ok (d.all fun kv2 => isfileZ z kv2.2) =
          (Except.ok true : Except PyErr Bool) := hcomp
      simp only [Except.ok.injEq] at hcomp2
      exact List.all_eq_true.mp hcomp2 kv hkv
    · rw [if_neg hlen] at hcomp
      simp at hcomp

theorem copySpectraRest_ret_none (z : Zf)
    (h : (_findSpectraInSAGE z).1 = .ok none) :
    (copySpectraRest z).ret = .ok 1 := by
  rcases hp : _findSpectraInSAGE z with ⟨r, lg⟩
  rw [hp] at h
  have hr : r = .ok none := h
  subst hr
  simp only [copySpectraRest, hp]

theorem copySpectraRest_ret_error (z : Zf) (e : PyErr)
    (h : (_findSpectraInSAGE z).1 = .error e) :
    (copySpectraRest z).ret = .error e := by
  rcases hp : _findSpectraInSAGE z with ⟨r, lg⟩
  rw [hp] at h
  have hr : r = .error e := h
  subst hr
  simp only [copySpectraRest, hp]

/-- C4: copySpectraToStudy with FORCE false and a destination that
already has content performs no copy and returns 0, whatever the source
state; and when the locate step runs and resolves nothing it returns 1. -/
theorem copySpectraToStudy_force_noop (z : Zf) :
    ((hasSpectra z).1 = true →
        (copySpectraToStudy z false).ret = .ok 0 ∧
          (copySpectraToStudy z false).copied = none) ∧
      (∀ F : Bool, (F = true ∨ (hasSpectra z).1 = false) →
        (_findSpectraInSAGE (if F then z else buildSpectra z)).1 = .ok none →
        (copySpectraToStudy z F).ret = .ok 1) := by
  constructor
  · intro h
    simp [copySpectraToStudy, h]
  · intro F hor hfind
    cases F with
    | true => exact copySpectraRest_ret_none z hfind
    | false =>
      rcases hor with h1 | h0
      · exact absurd h1 (by simp)
      · have heq : copySpectraToStudy z false = copySpectraRest (buildSpectra z) := by
          simp [copySpectraToStudy, h0, hasSpectra_snd]
        rw [heq]
        exact copySpectraRest_ret_none _ hfind

theorem copySpectraRest_state_mem (z : Zf) (q : String) (h : q ∈ z.dirs) :
    q ∈ (copySpectraRest z).state.dirs := by
  rcases hp : _findSpectraInSAGE z with ⟨r, lg⟩
  cases r with
  | error e =>
    simp only [copySpectraRest, hp]
    exact h
  | ok ro =>
    cases ro with
    | none =>
      simp only [copySpectraRest, hp]
      exact h
    | some d =>
      simp only [copySpectraRest, hp]
      exact mem_dirs_buildSpectra z q h

/-- C10: every spectra operation, including the read-style checks
hasSpectra, getSpectraPDF_dict and isSpectraComplete, ends with the
session's RAW/SPECTRA destination directory existing, because
getSpectraDir is called with BUILD_IF_NEED true: even a pure presence or
completeness query mutates the session directory tree when the directory
was missing. -/
theorem spectraOps_build_dir (z : Zf) :
    z.spectraDirPath ∈ ((hasSpectra z).2).dirs ∧
      z.spectraDirPath ∈ ((getSpectraPDF_dict z).2).dirs ∧
      z.spectraDirPath ∈ ((isSpectraComplete z).2).dirs ∧
      z.spectraDirPath ∈ ((copySpectraToStudy z false).state).dirs := by
  refine ⟨buildSpectra_mem_dirs z, buildSpectra_mem_dirs z, ?_, ?_⟩
  · rw [isSpectraComplete_snd]
    exact buildSpectra_mem_dirs z
  · by_cases h : (hasSpectra z).1 = true
    · have : copySpectraToStudy z false = ⟨.ok 0, none, [], (hasSpectra z).2⟩ := by
        simp [copySpectraToStudy, h]
      rw [this]
      exact buildSpectra_mem_dirs z
    · have h0 : (hasSpectra z).1 = false := by simpa using h
      have heq : copySpectraToStudy z false = copySpectraRest (buildSpectra z) := by
        simp [copySpectraToStudy, h0, hasSpectra_snd]
      rw [heq]
      have h2 := copySpectraRest_state_mem (buildSpectra z) (buildSpectra z).spectraDirPath
        (by rw [buildSpectra_path]; exact buildSpectra_mem_dirs z)
      rw [buildSpectra_path] at h2
      exact h2

/-- C7 (amended): when sage_data_dir is unset the operations log the
configuration error but do not return early: phase 1 then scans the
current working directory listing (os.listdir of None); if some listed
entry contains the patient ID the call raises TypeError from joining the
None root; only when no entry matches and the phase-2 scan yields nothing
does copySpectraToStudy return the failure code 1. -/
theorem copySpectra_sageUnset_behavior (z : Zf) (p sid : String)
    (hnone : z.sage_data_dir = none)
    (hp : z.patID = some p)
    (hsid : effStudyID z = some sid) :
    SLog.sageNotSet ∈ (_findSpectraInSAGE z).2 ∧
      ((∃ e ∈ z.cwdEntries, strContains e p = true) →
        (copySpectraToStudy z true).ret = .error .typeError) ∧
      ((∀ e ∈ z.cwdEntries, strContains e p = false) →
        z.sageScan none = none →
        (copySpectraToStudy z true).ret = .ok 1) := by
  have hl : listdirRoot z = .ok z.cwdEntries := by simp [listdirRoot, hnone]
  have hlog0 : SLog.sageNotSet ∈ sageLog0 z := by
    simp [sageLog0, sageUnsetLog, hnone]
  refine ⟨?_, ?_, ?_⟩
  · rcases hloop : phase1Loop z z.sage_data_dir p sid z.cwdEntries (sageLog0 z) with ⟨r, lg⟩
    have hmem : SLog.sageNotSet ∈ lg := by
      have h2 := phase1Loop_log_mono z z.sage_data_dir p sid z.cwdEntries (sageLog0 z)
        SLog.sageNotSet hlog0
      rw [hloop] at h2
      exact h2
    cases r with
    | error e =>
      simp only [_findSpectraInSAGE, hp, hsid, hl, hloop]
      exact hmem
    | ok ro =>
      cases ro with
      | some d =>
        simp only [_findSpectraInSAGE, hp, hsid, hl, hloop]
        exact hmem
      | none =>
        simp only [_findSpectraInSAGE, hp, hsid, hl, hloop]
        exact findPhase2_log_mono z _ _ (by simp [hmem])
  · intro hex
    have hfind1 : (_findSpectraInSAGE z).1 = .error .typeError := by
      rcases hloop : phase1Loop z z.sage_data_dir p sid z.cwdEntries (sageLog0 z) with ⟨r, lg⟩
      have h2 : (phase1Loop z z.sage_data_dir p sid z.cwdEntries (sageLog0 z)).1 =
          .error .typeError := by
        rw [hnone]
        exact phase1Loop_match_typeError z p sid z.cwdEntries (sageLog0 z) hex
      rw [hloop] at h2
      have hr : r = .error .typeError := h2
      subst hr
      simp only [_findSpectraInSAGE, hp, hsid, hl, hloop]
    exact copySpectraRest_ret_error z _ hfind1
  · intro hall hscan
    have hloopeq := phase1Loop_none_match z z.sage_data_dir p sid z.cwdEntries (sageLog0 z) hall
    have hfind1 : (_findSpectraInSAGE z).1 = .ok none := by
      simp only [_findSpectraInSAGE, hp, hsid, hl, hloopeq]
      simp [findPhase2, hnone, hscan]
    exact copySpectraRest_ret_none z hfind1

/-- A concrete subject state: archive root `sage` holding patient
directory `A_PAT1` with study directory `5`, spectra destination `S`
holding the complete sub-series `3`. -/
def zfBase : Zf :=
  { sage_data_dir := some "sage"
    patID := some "PAT1"
    studyID := "5"
    scannerStudyID := none
    studyInstanceUID := "UID1"
    spectraDirPath := "S"
    dirs := ["sage", "sage/A_PAT1", "sage/A_PAT1/5", "S", "S/3"]
    files := ["S/3/PFILE.7.PDF"]
    entries := fun q =>
      if q = "sage" then ["A_PAT1"]
      else if q = "S" then ["3"]
      else if q = "S/3" then ["PFILE.7.PDF"]
      else []
    cwdEntries := []
    sageScan := fun _ => none }

/-- Witness for C2: phase 1 finds `sage/A_PAT1/5`; it is returned and the
phase-2 scan marker is absent from the log. -/
theorem findSpectraInSAGE_phase_precedence_witness :
    (_findSpectraInSAGE zfBase).1 = .ok (some "sage/A_PAT1/5") ∧
      SLog.searchingUID ∉ (_findSpectraInSAGE zfBase).2 :=
  (findSpectraInSAGE_phase_precedence zfBase).1 "sage/A_PAT1/5" (by decide)

/-- The base state with the sub-series `3` present but its terminal
document missing. -/
def zfMiss : Zf :=
  { zfBase with
      entries := fun q => if q = "sage" then ["A_PAT1"] else if q = "S" then ["3"] else []
      files := [] }

/-- Witness for C3: a sub-series whose recorded document path is the
empty string forces an incomplete result. -/
theorem isSpectraComplete_spec_witness :
    (isSpectraComplete zfMiss).1 = .ok false :=
  (isSpectraComplete_spec zfMiss).2.1 [("3", "")] ("3", "") (by decide) (by decide) (by decide)

/-- Witness for C4: with FORCE false and content already under `S`, the
copy is skipped and 0 is returned. -/
theorem copySpectraToStudy_force_noop_witness :
    (copySpectraToStudy zfBase false).ret = .ok 0 ∧
      (copySpectraToStudy zfBase false).copied = none :=
  (copySpectraToStudy_force_noop zfBase).1 (by decide)

/-- The base state with a non-integer-named entry in the spectra
directory. -/
def zfNonInt : Zf :=
  { zfBase with
      entries := fun q => if q = "S" then ["abc"] else [] }

/-- C6 (code bug): on a spectra directory whose listing contains the
non-integer-named subdirectory `abc`, getSpectraPDF_dict raises an
uncaught ValueError instead of ignoring the entry: `int` raises
ValueError, but the source's except clause only catches NameError. -/
theorem getSpectraPDF_dict_nonint_raises :
    (getSpectraPDF_dict zfNonInt).1 = .error .valueError := by decide

/-- The base state with `sage_data_dir` unset, an empty spectra
destination, and a working-directory entry whose name contains the
patient ID. -/
def zfSageMatch : Zf :=
  { zfBase with
      sage_data_dir := none
      cwdEntries := ["AB_PAT1"]
      entries := fun _ => []
      files := [] }

/-- C7 counterexample: with sage_data_dir unset, copySpectraToStudy logs
the configuration error but then raises TypeError (the phase-1 scan runs
over the current working directory and joins a matching entry onto the
None root) instead of returning a failure code. -/
theorem copySpectra_sageUnset_raises :
    (copySpectraToStudy zfSageMatch false).ret = .error .typeError ∧
      SLog.sageNotSet ∈ (copySpectraToStudy zfSageMatch false).log ∧
      SLog.sageNotSet ∈ (_findSpectraInSAGE zfSageMatch).2 := by decide

/-- The base state with `sage_data_dir` unset and no working-directory
entry matching the patient ID. -/
def zfSageNone : Zf :=
  { zfBase with
      sage_data_dir := none
      cwdEntries := ["nothing"] }

/-- Witness for the amended C7: with no matching working-directory entry
and an empty phase-2 scan, failure code 1 is returned. -/
theorem copySpectra_sageUnset_behavior_witness :
    (copySpectraToStudy zfSageNone true).ret = .ok 1 :=
  (copySpectra_sageUnset_behavior zfSageNone "PAT1" "5" (by decide) (by decide)
      (by decide)).2.2 (by decide) (by decide)
